import Mathlib

/-!
Verification development for the QDP-ETL core.

The first half embeds the schema-adaptive flattener of
`src/Lambda_Functions/JSONtoCSV.py` (`read_nested_json`, `flatten`) over a
Spark-style typed columnar batch.  The second half embeds the DynamoDB-backed
job tracking writes (`update_dynamodb_status` in `JSONtoCSV.py`, the
`put_item`-based record creation in `GlueJobTrigger.py`) and the terminal
transition performed by `main`.
-/

namespace QDP

/-- Spark SQL values as they appear in a cell of a DataFrame read from JSON:
scalars (string, number, boolean, null), arrays (`ArrayType` columns) and
structs (`StructType` columns, a list of named fields). -/
inductive SVal where
  | null : SVal
  | str : String → SVal
  | num : Int → SVal
  | bool : Bool → SVal
  | arr : List SVal → SVal
  | strct : List (String × SVal) → SVal

/-- Spark SQL data types as far as `read_nested_json` inspects them: the code
only distinguishes `ArrayType`, `StructType` and everything else (scalar). -/
inductive SType where
  | scalar : SType
  | array : SType → SType
  | struct : List (String × SType) → SType

mutual

/-- Nesting depth of a Spark data type: scalars are depth 0, an array or a
struct adds one level above its contents. -/
def SType.depth : SType → Nat
  | SType.scalar => 0
  | SType.array t => t.depth + 1
  | SType.struct fs => maxFieldDepth fs + 1

/-- Maximum `SType.depth` over a list of named fields (also used as the depth
of a whole schema, which is exactly such a list). -/
def maxFieldDepth : List (String × SType) → Nat
  | [] => 0
  | f :: rest => max f.2.depth (maxFieldDepth rest)

end

/-- A column type is nested when the flattening loop of `flatten` would keep
running on it: `ArrayType` or `StructType`. -/
def isNested : SType → Bool
  | SType.scalar => false
  | SType.array _ => true
  | SType.struct _ => true

/-- The loop condition of `flatten` (lines 66-70 of JSONtoCSV.py): some column
of the schema is still `ArrayType` or `StructType`. -/
def hasNested (s : List (String × SType)) : Bool :=
  s.any (fun c => isNested c.2)

/-- Spark's `explode` on a cell: one output per array element; a null or empty
array yields no output (that row is dropped), which is the documented
behaviour of `pyspark.sql.functions.explode`. -/
def asList : SVal → List SVal
  | SVal.arr xs => xs
  | _ => []

/-- Lookup of a named field inside a struct value (first match). -/
def getFieldIn : List (String × SVal) → String → SVal
  | [], _ => SVal.null
  | g :: rest, f => if f = g.1 then g.2 else getFieldIn rest f

/-- Field projection `col(parent + "." + child)` on a struct cell: the named
field's value, or null when the cell is not a struct with that field. -/
def getField (v : SVal) (f : String) : SVal :=
  match v with
  | SVal.strct fs => getFieldIn fs f
  | _ => SVal.null

/-- Schema after one `read_nested_json` pass: an `ArrayType` column keeps its
name and takes the element type (the `withColumn(name, explode(name))` on line
36), a `StructType` column is replaced by one column per field named
`{parent}_{child}` (lines 40-41), every other column is retained (line 44). -/
def passSchema : List (String × SType) → List (String × SType)
  | [] => []
  | (n, SType.array t) :: rest => (n, t) :: passSchema rest
  | (n, SType.struct fs) :: rest =>
      fs.map (fun f => (n ++ "_" ++ f.1, f.2)) ++ passSchema rest
  | (n, SType.scalar) :: rest => (n, SType.scalar) :: passSchema rest

/-- Row multiplication performed by the sequential `explode` calls of one
`read_nested_json` pass: iterating the columns in schema order, an `ArrayType`
column turns the row into one row per array element (a cross product when
several array columns are present, since each `withColumn(..., explode(...))`
multiplies the current rows), and every other column keeps its cell. -/
def explodeRow : List (String × SType) → List SVal → List (List SVal)
  | [], _ => [[]]
  | _ :: _, [] => [[]]
  | c :: rest, v :: vs =>
    match c.2 with
    | SType.array _ =>
        (asList v).flatMap (fun x => (explodeRow rest vs).map (fun tail => x :: tail))
    | SType.struct _ => (explodeRow rest vs).map (fun tail => v :: tail)
    | SType.scalar => (explodeRow rest vs).map (fun tail => v :: tail)

/-- Cell selection of the final `df.select(column_list)` of one pass, applied
to a row that has already been exploded: a `StructType` column contributes one
cell per field (the field's value), every other column contributes its cell
unchanged. -/
def passRow : List (String × SType) → List SVal → List SVal
  | [], _ => []
  | _ :: _, [] => []
  | c :: rest, v :: vs =>
    match c.2 with
    | SType.struct fs => fs.map (fun f => getField v f.1) ++ passRow rest vs
    | SType.array _ => v :: passRow rest vs
    | SType.scalar => v :: passRow rest vs

/-- A Spark DataFrame as the flattener sees it: a named, typed schema and a
list of rows, each row a list of cells aligned positionally with the schema. -/
structure DF where
  schema : List (String × SType)
  rows : List (List SVal)

/-- One flattening pass, `read_nested_json(df)` (JSONtoCSV.py lines 22-47):
explode every `ArrayType` column in schema order, then select the resulting
columns, expanding every `StructType` column into `{parent}_{child}` fields. -/
def read_nested_json (df : DF) : DF :=
  { schema := passSchema df.schema
  , rows := (df.rows.flatMap (explodeRow df.schema)).map (passRow df.schema) }

/-- Rows are aligned with the schema: every row has one cell per column. -/
abbrev WF (df : DF) : Prop := ∀ r ∈ df.rows, r.length = df.schema.length

theorem maxFieldDepth_append (s1 s2 : List (String × SType)) :
    maxFieldDepth (s1 ++ s2) = max (maxFieldDepth s1) (maxFieldDepth s2) := by
  induction s1 with
  | nil => simp [maxFieldDepth]
  | cons c rest ih =>
    simp only [List.cons_append, maxFieldDepth, List.append_eq]
    rw [ih]
    omega

theorem maxFieldDepth_map_rename (g : String → String) (fs : List (String × SType)) :
    maxFieldDepth (fs.map (fun f => (g f.1, f.2))) = maxFieldDepth fs := by
  induction fs with
  | nil => rfl
  | cons f rest ih => simp [maxFieldDepth, ih]

theorem depth_pos_of_isNested {t : SType} (h : isNested t = true) : 1 ≤ t.depth := by
  cases t with
  | scalar => simp [isNested] at h
  | array t => simp [SType.depth]
  | struct fs => simp [SType.depth]

theorem depth_pos_of_hasNested {s : List (String × SType)} (h : hasNested s = true) :
    1 ≤ maxFieldDepth s := by
  induction s with
  | nil => simp [hasNested] at h
  | cons c rest ih =>
    simp only [hasNested, List.any_cons, Bool.or_eq_true] at h
    simp only [maxFieldDepth]
    rcases h with h | h
    · have := depth_pos_of_isNested h
      omega
    · have := ih h
      omega

theorem passSchema_depth (s : List (String × SType)) :
    maxFieldDepth (passSchema s) + 1 ≤ maxFieldDepth s ∨
      maxFieldDepth (passSchema s) = 0 := by
  induction s with
  | nil => right; rfl
  | cons c rest ih =>
    obtain ⟨n, t⟩ := c
    cases t with
    | scalar =>
      simp only [passSchema, maxFieldDepth, SType.depth]
      rcases ih with h | h
      · left; omega
      · right; omega
    | array t =>
      simp only [passSchema, maxFieldDepth, SType.depth]
      rcases ih with h | h
      · left; omega
      · left; omega
    | struct fs =>
      simp only [passSchema, maxFieldDepth, SType.depth, maxFieldDepth_append,
        maxFieldDepth_map_rename]
      rcases ih with h | h
      · left; omega
      · left; omega

theorem passSchema_decreasing {s : List (String × SType)}
    (h : hasNested (passSchema s) = true) :
    maxFieldDepth (passSchema s) < maxFieldDepth s := by
  have h1 := depth_pos_of_hasNested h
  rcases passSchema_depth s with h2 | h2
  · omega
  · omega

/-- The fixed-point loop `flatten(df)` (JSONtoCSV.py lines 50-71): apply one
`read_nested_json` pass, re-inspect the schema, and repeat while any column is
still `ArrayType` or `StructType`.  Termination: each pass strictly decreases
the maximum nesting depth of the schema. -/
def flatten (df : DF) : DF :=
  if _h : hasNested (read_nested_json df).schema = true then
    flatten (read_nested_json df)
  else read_nested_json df
termination_by maxFieldDepth df.schema
decreasing_by
  simp only [read_nested_json] at _h ⊢
  exact passSchema_decreasing _h

/-- Number of `read_nested_json` passes the loop of `flatten` performs on a
given input (the loop body always runs at least once). -/
def passCount (df : DF) : Nat :=
  if _h : hasNested (read_nested_json df).schema = true then
    passCount (read_nested_json df) + 1
  else 1
termination_by maxFieldDepth df.schema
decreasing_by
  simp only [read_nested_json] at _h ⊢
  exact passSchema_decreasing _h

/-- Depth of the input record tree: the root object contributes one level and
the nesting of its columns (the root object's fields) the rest. -/
def recordDepth (df : DF) : Nat := maxFieldDepth df.schema + 1

/-- Recognizer for `ArrayType` columns (the `isinstance(..., ArrayType)` test
on line 35 of JSONtoCSV.py). -/
def isArrayType : SType → Bool
  | SType.array _ => true
  | _ => false

/-- Recognizer for `StructType` columns (the `isinstance(..., StructType)`
test on line 39 of JSONtoCSV.py). -/
def isStructType : SType → Bool
  | SType.struct _ => true
  | _ => false

theorem isNested_eq_false_iff {t : SType} : isNested t = false ↔ t = SType.scalar := by
  cases t <;> simp [isNested]

theorem all_scalar_of_not_hasNested {s : List (String × SType)}
    (h : hasNested s = false) : ∀ c ∈ s, c.2 = SType.scalar := by
  intro c hc
  have := List.any_eq_false.mp h c hc
  exact isNested_eq_false_iff.mp (by simpa using this)

theorem passSchema_append (s1 s2 : List (String × SType)) :
    passSchema (s1 ++ s2) = passSchema s1 ++ passSchema s2 := by
  induction s1 with
  | nil => rfl
  | cons c rest ih =>
    obtain ⟨n, t⟩ := c
    cases t <;> simp [passSchema, ih]

theorem passSchema_flat {s : List (String × SType)} (h : hasNested s = false) :
    passSchema s = s := by
  induction s with
  | nil => rfl
  | cons c rest ih =>
    simp only [hasNested, List.any_cons, Bool.or_eq_false_iff] at h
    obtain ⟨n, t⟩ := c
    have ht : t = SType.scalar := isNested_eq_false_iff.mp h.1
    subst ht
    simp [passSchema, ih h.2]

theorem explodeRow_noArray :
    ∀ (s : List (String × SType)) (r : List SVal),
      (∀ c ∈ s, isArrayType c.2 = false) → r.length = s.length →
      explodeRow s r = [r]
  | [], [], _, _ => rfl
  | c :: rest, v :: vs, h, hlen => by
    have hrest : explodeRow rest vs = [vs] :=
      explodeRow_noArray rest vs (fun d hd => h d (List.mem_cons_of_mem c hd))
        (by simpa using hlen)
    have hc := h c (List.mem_cons_self c rest)
    cases ht : c.2 with
    | scalar => simp [explodeRow, ht, hrest]
    | array t => rw [ht] at hc; simp [isArrayType] at hc
    | struct fs => simp [explodeRow, ht, hrest]

theorem passRow_noStruct :
    ∀ (s : List (String × SType)) (r : List SVal),
      (∀ c ∈ s, isStructType c.2 = false) → r.length = s.length →
      passRow s r = r
  | [], [], _, _ => rfl
  | c :: rest, v :: vs, h, hlen => by
    have hrest : passRow rest vs = vs :=
      passRow_noStruct rest vs (fun d hd => h d (List.mem_cons_of_mem c hd))
        (by simpa using hlen)
    have hc := h c (List.mem_cons_self c rest)
    cases ht : c.2 with
    | scalar => simp [passRow, ht, hrest]
    | array t => simp [passRow, ht, hrest]
    | struct fs => rw [ht] at hc; simp [isStructType] at hc

theorem passRow_length :
    ∀ (s : List (String × SType)) (r : List SVal), r.length = s.length →
      (passRow s r).length = (passSchema s).length
  | [], [], _ => rfl
  | c :: rest, v :: vs, hlen => by
    have hrest := passRow_length rest vs (by simpa using hlen)
    obtain ⟨n, t⟩ := c
    cases t <;> simp [passRow, passSchema, hrest]

theorem explodeRow_mem_length :
    ∀ (s : List (String × SType)) (r : List SVal), r.length = s.length →
      ∀ r' ∈ explodeRow s r, r'.length = s.length
  | [], [], _ => by intro r' hr'; simp [explodeRow] at hr'; simp [hr']
  | c :: rest, v :: vs, hlen => by
    intro r' hr'
    have ihlen : vs.length = rest.length := by simpa using hlen
    cases ht : c.2 with
    | array t =>
      simp only [explodeRow, ht, List.mem_flatMap, List.mem_map] at hr'
      obtain ⟨x, _, tail, htail, rfl⟩ := hr'
      have := explodeRow_mem_length rest vs ihlen tail htail
      simp [this]
    | struct fs =>
      simp only [explodeRow, ht, List.mem_map] at hr'
      obtain ⟨tail, htail, rfl⟩ := hr'
      have := explodeRow_mem_length rest vs ihlen tail htail
      simp [this]
    | scalar =>
      simp only [explodeRow, ht, List.mem_map] at hr'
      obtain ⟨tail, htail, rfl⟩ := hr'
      have := explodeRow_mem_length rest vs ihlen tail htail
      simp [this]

theorem WF_read_nested_json {df : DF} (h : WF df) : WF (read_nested_json df) := by
  intro r' hr'
  simp only [read_nested_json, List.mem_map, List.mem_flatMap] at hr'
  obtain ⟨r1, ⟨r0, hr0, hr1⟩, rfl⟩ := hr'
  have h1 : r1.length = df.schema.length :=
    explodeRow_mem_length df.schema r0 (h r0 hr0) r1 hr1
  simpa [read_nested_json] using passRow_length df.schema r1 h1

theorem read_nested_json_flat_id {df : DF}
    (hflat : hasNested df.schema = false) (hwf : WF df) :
    read_nested_json df = df := by
  obtain ⟨s, rows⟩ := df
  have hsc := all_scalar_of_not_hasNested hflat
  have hexp : ∀ rs : List (List SVal), (∀ r ∈ rs, r.length = s.length) →
      rs.flatMap (explodeRow s) = rs := by
    intro rs
    induction rs with
    | nil => intro _; rfl
    | cons r rest ih =>
      intro hall
      have h1 : explodeRow s r = [r] :=
        explodeRow_noArray s r (fun c hc => by rw [hsc c hc]; rfl)
          (hall r (List.mem_cons_self r rest))
      simp [List.flatMap_cons, h1, ih (fun q hq => hall q (List.mem_cons_of_mem _ hq))]
  have hexp' := hexp rows hwf
  simp only [read_nested_json, DF.mk.injEq]
  refine ⟨passSchema_flat hflat, ?_⟩
  rw [hexp']
  have : ∀ r ∈ rows, passRow s r = r := fun r hr =>
    passRow_noStruct s r (fun c hc => by rw [hsc c hc]; rfl) (hwf r hr)
  calc rows.map (passRow s) = rows.map id := List.map_congr_left this
    _ = rows := List.map_id rows

theorem flatten_not_nested (df : DF) : hasNested (flatten df).schema = false := by
  suffices H : ∀ (n : Nat) (df : DF), maxFieldDepth df.schema ≤ n →
      hasNested (flatten df).schema = false from H _ df le_rfl
  intro n
  induction n with
  | zero =>
    intro df hle
    rw [flatten]
    split
    · rename_i h
      have := passSchema_decreasing (s := df.schema) (by simpa [read_nested_json] using h)
      omega
    · rename_i h
      simpa using h
  | succ n ih =>
    intro df hle
    rw [flatten]
    split
    · rename_i h
      apply ih
      have := passSchema_decreasing (s := df.schema) (by simpa [read_nested_json] using h)
      simp only [read_nested_json]
      omega
    · rename_i h
      simpa using h

theorem WF_flatten {df : DF} (h : WF df) : WF (flatten df) := by
  suffices H : ∀ (n : Nat) (df : DF), maxFieldDepth df.schema ≤ n → WF df →
      WF (flatten df) from H _ df le_rfl h
  intro n
  induction n with
  | zero =>
    intro df hle hwf
    rw [flatten]
    split
    · rename_i hcond
      have := passSchema_decreasing (s := df.schema)
        (by simpa [read_nested_json] using hcond)
      omega
    · exact WF_read_nested_json hwf
  | succ n ih =>
    intro df hle hwf
    rw [flatten]
    split
    · rename_i hcond
      refine ih _ ?_ (WF_read_nested_json hwf)
      have := passSchema_decreasing (s := df.schema)
        (by simpa [read_nested_json] using hcond)
      simp only [read_nested_json]
      omega
    · exact WF_read_nested_json hwf

theorem passCount_le (df : DF) : passCount df ≤ maxFieldDepth df.schema + 1 := by
  suffices H : ∀ (n : Nat) (df : DF), maxFieldDepth df.schema ≤ n →
      passCount df ≤ n + 1 from H _ df le_rfl
  intro n
  induction n with
  | zero =>
    intro df hle
    rw [passCount]
    split
    · rename_i h
      have := passSchema_decreasing (s := df.schema) (by simpa [read_nested_json] using h)
      omega
    · omega
  | succ n ih =>
    intro df hle
    rw [passCount]
    split
    · rename_i h
      have hlt := passSchema_decreasing (s := df.schema)
        (by simpa [read_nested_json] using h)
      have := ih (read_nested_json df) (by simp only [read_nested_json]; omega)
      omega
    · omega

theorem flatten_eq_iterate (df : DF) :
    flatten df = read_nested_json^[passCount df] df := by
  suffices H : ∀ (n : Nat) (df : DF), maxFieldDepth df.schema ≤ n →
      flatten df = read_nested_json^[passCount df] df from H _ df le_rfl
  intro n
  induction n with
  | zero =>
    intro df hle
    rw [flatten, passCount]
    by_cases h : hasNested (read_nested_json df).schema = true
    · have := passSchema_decreasing (s := df.schema) (by simpa [read_nested_json] using h)
      omega
    · rw [dif_neg h, dif_neg h, Function.iterate_one]
  | succ n ih =>
    intro df hle
    rw [flatten, passCount]
    by_cases h : hasNested (read_nested_json df).schema = true
    · rw [dif_pos h, dif_pos h, Function.iterate_succ_apply]
      refine ih (read_nested_json df) ?_
      have := passSchema_decreasing (s := df.schema) (by simpa [read_nested_json] using h)
      simp only [read_nested_json]
      omega
    · rw [dif_neg h, dif_neg h, Function.iterate_one]

/-- C1: for every finite-depth input batch, the flattening loop `flatten`
(which repeats the single pass `read_nested_json` while any column is List- or
Object-typed) terminates in at most `recordDepth` (the depth of the input
record tree) passes, and on termination every column of the result is
Scalar-typed: no Array or Struct column remains. -/
theorem c1_flatten_terminates_all_scalar (df : DF) :
    passCount df ≤ recordDepth df ∧
      flatten df = read_nested_json^[passCount df] df ∧
      hasNested (flatten df).schema = false :=
  ⟨passCount_le df, flatten_eq_iterate df, flatten_not_nested df⟩

/-- C4: one flattening pass (`read_nested_json`) is the identity on any batch
whose columns are all Scalar-typed (same columns, same rows), and consequently
running one extra pass on the output of `flatten` is a no-op. -/
theorem c4_pass_identity_on_flat (df : DF) (hwf : WF df) :
    (hasNested df.schema = false → read_nested_json df = df) ∧
      read_nested_json (flatten df) = flatten df :=
  ⟨fun hflat => read_nested_json_flat_id hflat hwf,
    read_nested_json_flat_id (flatten_not_nested df) (WF_flatten hwf)⟩

/-- Witness for C4 on the already-flat single-row batch with one scalar
column `a`. -/
theorem c4_pass_identity_on_flat_witness :
    read_nested_json (DF.mk [("a", SType.scalar)] [[SVal.num 1]]) =
        DF.mk [("a", SType.scalar)] [[SVal.num 1]] ∧
      read_nested_json (flatten (DF.mk [("a", SType.scalar)] [[SVal.num 1]])) =
        flatten (DF.mk [("a", SType.scalar)] [[SVal.num 1]]) :=
  ⟨(c4_pass_identity_on_flat (DF.mk [("a", SType.scalar)] [[SVal.num 1]])
      (by intro r hr; simp at hr; simp [hr])).1 rfl,
    (c4_pass_identity_on_flat (DF.mk [("a", SType.scalar)] [[SVal.num 1]])
      (by intro r hr; simp at hr; simp [hr])).2⟩

theorem explode_pass_single_list :
    ∀ (pre : List (String × SType)) (u : List SVal),
      (∀ c ∈ pre, c.2 = SType.scalar) → u.length = pre.length →
      ∀ (post : List (String × SType)) (w : List SVal),
        (∀ c ∈ post, c.2 = SType.scalar) → w.length = post.length →
      ∀ (n : String) (t : SType) (xs : List SVal),
      (explodeRow (pre ++ (n, SType.array t) :: post) (u ++ SVal.arr xs :: w)).map
          (passRow (pre ++ (n, SType.array t) :: post))
        = xs.map (fun x => u ++ x :: w)
  | [], [], _, _, post, w, hpost, hw, n, t, xs => by
    have hpw : explodeRow post w = [w] :=
      explodeRow_noArray post w (fun c hc => by rw [hpost c hc]; rfl) hw
    have hpr : passRow post w = w :=
      passRow_noStruct post w (fun c hc => by rw [hpost c hc]; rfl) hw
    have key : ∀ ys : List SVal,
        (ys.flatMap (fun x => [x :: w])).map
            (passRow ((n, SType.array t) :: post))
          = ys.map (fun x => x :: w) := by
      intro ys
      induction ys with
      | nil => rfl
      | cons y ys ihy => simp [List.flatMap_cons, passRow, hpr, ihy]
    have lhs : explodeRow ((n, SType.array t) :: post) (SVal.arr xs :: w)
        = xs.flatMap (fun x => [x :: w]) := by
      simp [explodeRow, asList, hpw]
    simpa [read_nested_json, lhs] using key xs
  | c :: pre, v :: u, hpre, hu, post, w, hpost, hw, n, t, xs => by
    have hc : c.2 = SType.scalar := hpre c (List.mem_cons_self c pre)
    have ih := explode_pass_single_list pre u
      (fun d hd => hpre d (List.mem_cons_of_mem c hd)) (by simpa using hu)
      post w hpost hw n t xs
    obtain ⟨m, tc⟩ := c
    have hc' : tc = SType.scalar := hc
    subst hc'
    calc
      (explodeRow (((m, SType.scalar) :: pre) ++ (n, SType.array t) :: post)
            ((v :: u) ++ SVal.arr xs :: w)).map
          (passRow (((m, SType.scalar) :: pre) ++ (n, SType.array t) :: post))
        = ((explodeRow (pre ++ (n, SType.array t) :: post)
              (u ++ SVal.arr xs :: w)).map (fun tail => v :: tail)).map
            (passRow ((m, SType.scalar) :: (pre ++ (n, SType.array t) :: post))) := rfl
      _ = ((explodeRow (pre ++ (n, SType.array t) :: post)
              (u ++ SVal.arr xs :: w)).map
            (passRow (pre ++ (n, SType.array t) :: post))).map (fun r => v :: r) := by
          rw [List.map_map, List.map_map]
          exact List.map_congr_left (fun tail _ => rfl)
      _ = (xs.map (fun x => u ++ x :: w)).map (fun r => v :: r) := by rw [ih]
      _ = xs.map (fun x => (v :: u) ++ x :: w) := by
          rw [List.map_map]
          exact List.map_congr_left (fun x _ => rfl)

/-- Amended C2: for a row whose List-typed column holds an N-element list and
whose every other column is Scalar-typed, one flattening pass turns the row
into exactly N rows, one per list element, with every other column duplicated
unchanged.  (The unrestricted claim fails when another List- or Object-typed
column is present in the same schema; see the counterexample.) -/
theorem c2_explode_counts (n : String) (t : SType)
    (pre post : List (String × SType)) (u w xs : List SVal)
    (hpre : ∀ c ∈ pre, c.2 = SType.scalar) (hpost : ∀ c ∈ post, c.2 = SType.scalar)
    (hu : u.length = pre.length) (hw : w.length = post.length) :
    (read_nested_json
        (DF.mk (pre ++ (n, SType.array t) :: post) [u ++ SVal.arr xs :: w])).rows
      = xs.map (fun x => u ++ x :: w) ∧
    (read_nested_json
        (DF.mk (pre ++ (n, SType.array t) :: post) [u ++ SVal.arr xs :: w])).rows.length
      = xs.length := by
  have h := explode_pass_single_list pre u hpre hu post w hpost hw n t xs
  constructor
  · simpa [read_nested_json] using h
  · have : (read_nested_json
        (DF.mk (pre ++ (n, SType.array t) :: post) [u ++ SVal.arr xs :: w])).rows
      = xs.map (fun x => u ++ x :: w) := by simpa [read_nested_json] using h
    simp [this]

/-- Witness for the amended C2: flattening the record with one column `a`
holding the list [1, 2, 3] yields exactly the three rows 1, 2 and 3. -/
theorem c2_explode_counts_witness :
    (read_nested_json (DF.mk [("a", SType.array SType.scalar)]
        [[SVal.arr [SVal.num 1, SVal.num 2, SVal.num 3]]])).rows
      = [[SVal.num 1], [SVal.num 2], [SVal.num 3]] :=
  ((c2_explode_counts "a" SType.scalar [] [] [] []
      [SVal.num 1, SVal.num 2, SVal.num 3]
      (by simp) (by simp) rfl rfl).1).trans (by rfl)

/-- Counterexample to C2 as stated: in the single row
`{"a": [1,2], "b": [3,4]}` column `a` holds a 2-element list, yet one
flattening pass produces 4 rows (the cross product with the other List-typed
column), not 2. -/
theorem c2_counterexample :
    (read_nested_json (DF.mk
        [("a", SType.array SType.scalar), ("b", SType.array SType.scalar)]
        [[SVal.arr [SVal.num 1, SVal.num 2],
          SVal.arr [SVal.num 3, SVal.num 4]]])).rows.length = 4 ∧
      (4 : Nat) ≠ 2 := by
  exact ⟨rfl, by decide⟩

theorem passRow_append :
    ∀ (s1 : List (String × SType)) (r1 : List SVal), r1.length = s1.length →
      ∀ (s2 : List (String × SType)) (r2 : List SVal),
      passRow (s1 ++ s2) (r1 ++ r2) = passRow s1 r1 ++ passRow s2 r2
  | [], [], _, _, _ => rfl
  | c :: s1, v :: r1, hlen, s2, r2 => by
    have ih := passRow_append s1 r1 (by simpa using hlen) s2 r2
    obtain ⟨m, tc⟩ := c
    cases tc <;> simp [passRow, ih]

theorem explodeRow_mem_split (nm : String) (fs : List (String × SType))
    (s2 : List (String × SType)) (r2 : List SVal) (v : SVal) :
    ∀ (s1 : List (String × SType)) (r1 : List SVal), r1.length = s1.length →
      ∀ r' ∈ explodeRow (s1 ++ (nm, SType.struct fs) :: s2) (r1 ++ v :: r2),
        ∃ a b, a.length = r1.length ∧ r' = a ++ v :: b
  | [], [], _ => by
    intro r' hr'
    simp only [List.nil_append, explodeRow, List.mem_map] at hr'
    obtain ⟨tail, _, rfl⟩ := hr'
    exact ⟨[], tail, rfl, rfl⟩
  | c :: s1, v0 :: r1, hlen => by
    intro r' hr'
    have hlen' : r1.length = s1.length := by simpa using hlen
    cases ht : c.2 with
    | array t =>
      simp only [List.cons_append, explodeRow, ht, List.mem_flatMap,
        List.mem_map] at hr'
      obtain ⟨x, _, tail, htail, rfl⟩ := hr'
      obtain ⟨a, b, ha, rfl⟩ := explodeRow_mem_split nm fs s2 r2 v s1 r1 hlen' tail htail
      exact ⟨x :: a, b, by simp [ha], rfl⟩
    | struct gs =>
      simp only [List.cons_append, explodeRow, ht, List.mem_map] at hr'
      obtain ⟨tail, htail, rfl⟩ := hr'
      obtain ⟨a, b, ha, rfl⟩ := explodeRow_mem_split nm fs s2 r2 v s1 r1 hlen' tail htail
      exact ⟨v0 :: a, b, by simp [ha], rfl⟩
    | scalar =>
      simp only [List.cons_append, explodeRow, ht, List.mem_map] at hr'
      obtain ⟨tail, htail, rfl⟩ := hr'
      obtain ⟨a, b, ha, rfl⟩ := explodeRow_mem_split nm fs s2 r2 v s1 r1 hlen' tail htail
      exact ⟨v0 :: a, b, by simp [ha], rfl⟩

/-- C3: one flattening pass on a batch whose column `n` is Object-typed with
child fields `fs` replaces that column with one new column per child field,
named `{parent}_{child}` (underscore-joined), removes the parent column, and
every resulting row carries the child values of the row's struct cell at those
positions. -/
theorem c3_struct_expansion (n : String) (fs : List (String × SType))
    (pre post : List (String × SType)) (u w : List SVal) (v : SVal)
    (hu : u.length = pre.length) :
    (read_nested_json (DF.mk (pre ++ (n, SType.struct fs) :: post) [u ++ v :: w])).schema
        = passSchema pre ++ fs.map (fun f => (n ++ "_" ++ f.1, f.2)) ++ passSchema post
      ∧ ∀ r' ∈ (read_nested_json
            (DF.mk (pre ++ (n, SType.struct fs) :: post) [u ++ v :: w])).rows,
          ∃ a b, a.length = (passSchema pre).length ∧
            r' = a ++ fs.map (fun f => getField v f.1) ++ b := by
  constructor
  · simp [read_nested_json, passSchema_append, passSchema, List.append_assoc]
  · intro r' hr'
    simp only [read_nested_json, List.mem_map, List.flatMap_cons, List.flatMap_nil,
      List.append_nil] at hr'
    obtain ⟨r1, hr1, rfl⟩ := hr'
    obtain ⟨a, b, ha, rfl⟩ :=
      explodeRow_mem_split n fs post w v pre u (hu.symm ▸ rfl) r1 hr1
    rw [passRow_append pre a (by omega) ((n, SType.struct fs) :: post) (v :: b)]
    refine ⟨passRow pre a, passRow post b, passRow_length pre a (by omega), ?_⟩
    simp [passRow, List.append_assoc]

/-- Witness for C3: flattening the single record `{"a": {"x": 1, "y": 2}}`
yields one row with columns `a_x = 1` and `a_y = 2`. -/
theorem c3_struct_expansion_witness :
    (read_nested_json (DF.mk [("a", SType.struct [("x", SType.scalar), ("y", SType.scalar)])]
        [[SVal.strct [("x", SVal.num 1), ("y", SVal.num 2)]]])).schema
      = [("a_x", SType.scalar), ("a_y", SType.scalar)]
    ∧ (read_nested_json (DF.mk [("a", SType.struct [("x", SType.scalar), ("y", SType.scalar)])]
        [[SVal.strct [("x", SVal.num 1), ("y", SVal.num 2)]]])).rows
      = [[SVal.num 1, SVal.num 2]] :=
  ⟨((c3_struct_expansion "a" [("x", SType.scalar), ("y", SType.scalar)] [] [] [] []
      (SVal.strct [("x", SVal.num 1), ("y", SVal.num 2)]) rfl).1).trans (by rfl),
    by rfl⟩

theorem explodeRow_middle_empty (nm : String) (t : SType)
    (s2 : List (String × SType)) (r2 : List SVal) (v : SVal) (hv : asList v = []) :
    ∀ (s1 : List (String × SType)) (r1 : List SVal), r1.length = s1.length →
      explodeRow (s1 ++ (nm, SType.array t) :: s2) (r1 ++ v :: r2) = []
  | [], [], _ => by simp [explodeRow, hv]
  | c :: s1, v0 :: r1, hlen => by
    have ih := explodeRow_middle_empty nm t s2 r2 v hv s1 r1 (by simpa using hlen)
    obtain ⟨m, tc⟩ := c
    cases tc <;> simp [explodeRow, ih]

/-- C10: a row whose List-typed column holds an empty list or null produces
zero output rows in one flattening pass — the row is dropped, matching the
semantics of `pyspark.sql.functions.explode` used on line 36 of JSONtoCSV.py
(the spec's open question about the empty-list policy is resolved as
"drop"). -/
theorem c10_empty_list_drops_row (n : String) (t : SType)
    (pre post : List (String × SType)) (u w : List SVal) (v : SVal)
    (hu : u.length = pre.length) (hv : v = SVal.arr [] ∨ v = SVal.null) :
    (read_nested_json (DF.mk (pre ++ (n, SType.array t) :: post) [u ++ v :: w])).rows
      = [] := by
  have hv' : asList v = [] := by rcases hv with rfl | rfl <;> rfl
  have h := explodeRow_middle_empty n t post w v hv' pre u hu
  simp [read_nested_json, h]

/-- Witness for C10: one pass on the single record `{"a": []}` and on the
single record `{"a": null}` each produces zero rows. -/
theorem c10_empty_list_drops_row_witness :
    (read_nested_json (DF.mk [("a", SType.array SType.scalar)] [[SVal.arr []]])).rows = []
    ∧ (read_nested_json (DF.mk [("a", SType.array SType.scalar)] [[SVal.null]])).rows = [] :=
  ⟨c10_empty_list_drops_row "a" SType.scalar [] [] [] [] (SVal.arr []) rfl (Or.inl rfl),
    c10_empty_list_drops_row "a" SType.scalar [] [] [] [] SVal.null rfl (Or.inr rfl)⟩

/-! Job tracking.  The job store is the DynamoDB table `processing-1`, a
key-value store keyed by `reference_id`.  An item is a partial attribute map
and the table maps each `reference_id` to an item when present. -/

/-- A DynamoDB item: a partial map from attribute name to value (all
attributes written by this codebase are strings). -/
abbrev Item := String → Option String

/-- The DynamoDB table `processing-1`, keyed by `reference_id`. -/
abbrev Table := String → Option Item

/-- Setting one attribute of an item, as a DynamoDB `SET` clause does. -/
def setAttr (it : Item) (k v : String) : Item :=
  fun a => if a = k then some v else it a

/-- Applying a list of `SET` clauses in order. -/
def setAttrs : Item → List (String × String) → Item
  | it, [] => it
  | it, kv :: rest => setAttrs (setAttr it kv.1 kv.2) rest

/-- The item DynamoDB creates when `update_item` targets an absent key: just
the key attribute. -/
def keyOnlyItem (reference_id : String) : Item :=
  fun a => if a = "reference_id" then some reference_id else none

/-- DynamoDB `update_item` with a `SET` update expression (used on lines
107-111 of JSONtoCSV.py): an upsert that applies the listed `SET` clauses to
the stored item, creating a key-only item first when the key is absent; no
other item and no other attribute is touched. -/
def update_item (tbl : Table) (reference_id : String)
    (ups : List (String × String)) : Table :=
  fun r =>
    if r = reference_id then
      some (setAttrs ((tbl reference_id).getD (keyOnlyItem reference_id)) ups)
    else tbl r

/-- DynamoDB `put_item` (used on line 86 of GlueJobTrigger.py): an
unconditional full-item write that replaces any existing item with the same
key. -/
def put_item (tbl : Table) (reference_id : String) (item : Item) : Table :=
  fun r => if r = reference_id then some item else tbl r

/-- Point lookup of a whole item. -/
def getItem (tbl : Table) (reference_id : String) : Option Item :=
  tbl reference_id

/-- Lookup of one attribute of one item. -/
def getAttr (tbl : Table) (reference_id attr : String) : Option String :=
  match tbl reference_id with
  | some it => it attr
  | none => none

/-- The character set of Python's `lstrip('s3:/')` on line 92 of
JSONtoCSV.py: leading characters drawn from this set are removed. -/
def s3StripChars : List Char := ['s', '3', ':', '/']

/-- Python `s.lstrip('s3:/')`. -/
def lstripS3 (s : String) : String :=
  String.mk (s.toList.dropWhile (fun c => s3StripChars.contains c))

/-- Python `s.rstrip('/')`. -/
def rstripSlash (s : String) : String :=
  String.mk ((s.toList.reverse.dropWhile (fun c => c = '/')).reverse)

/-- Python `s.replace('//', '/')`: left-to-right, non-overlapping. -/
def collapseDoubleSlash : List Char → List Char
  | '/' :: '/' :: rest => '/' :: collapseDoubleSlash rest
  | c :: rest => c :: collapseDoubleSlash rest
  | [] => []

/-- The S3 key cleaning on line 92 of JSONtoCSV.py:
`s3_object_key.lstrip('s3:/').rstrip('/').replace('//', '/')`. -/
def clean_s3_key (s : String) : String :=
  String.mk (collapseDoubleSlash (rstripSlash (lstripS3 s)).toList)

/-- The two truthiness guards around the S3 key in `update_dynamodb_status`:
line 91 cleans the key only when it is truthy (present and non-empty), and
line 102 adds it to the update expression only when the cleaned key is still
truthy. -/
def normalize_s3_key : Option String → Option String
  | none => none
  | some s =>
    if s = "" then none
    else if clean_s3_key s = "" then none else some (clean_s3_key s)

/-- The `SET` clauses built on lines 95-104 of JSONtoCSV.py: always
`job_status` and `job_end_time`, plus `s3_object_key` when a cleaned key is
present. -/
def status_updates (status job_end_time : String) : Option String → List (String × String)
  | some c => [("job_status", status), ("job_end_time", job_end_time), ("s3_object_key", c)]
  | none => [("job_status", status), ("job_end_time", job_end_time)]

/-- The transition operation `update_dynamodb_status(reference_id, status,
s3_object_key)` (JSONtoCSV.py lines 74-120), with the internally generated
`datetime.utcnow()` timestamp passed explicitly as `job_end_time`.  The body
performs a single unconditional `update_item` upsert. -/
def update_dynamodb_status (tbl : Table) (reference_id status job_end_time : String)
    (s3_object_key : Option String) : Table :=
  update_item tbl reference_id
    (status_updates status job_end_time (normalize_s3_key s3_object_key))

/-- The output location built on line 161 of JSONtoCSV.py:
`f"{output_path}/{email}/{reference_ID}_output_{timestamp}.csv"`. -/
def unique_output_path (output_path email reference_ID timestamp : String) : String :=
  output_path ++ "/" ++ email ++ "/" ++ reference_ID ++ "_output_" ++ timestamp ++ ".csv"

/-- The terminal job-tracker transition performed by `main` (JSONtoCSV.py
lines 149-173): if reading, flattening and writing succeed, one
`update_dynamodb_status(reference_ID, "SUCCEEDED", unique_output_path)` call;
if any exception is raised, it is caught and one
`update_dynamodb_status(reference_ID, "FAILED")` call is made (the exception
message is only printed, then re-raised).  The processing steps themselves are
I/O and are abstracted as the `outcome` argument carrying the exception
message on failure. -/
def main_terminal_update (tbl : Table)
    (reference_ID email output_path timestamp job_end_time : String)
    (outcome : Except String Unit) : Table :=
  match outcome with
  | Except.ok _ =>
      update_dynamodb_status tbl reference_ID "SUCCEEDED" job_end_time
        (some (unique_output_path output_path email reference_ID timestamp))
  | Except.error _ =>
      update_dynamodb_status tbl reference_ID "FAILED" job_end_time none

/-- The `dynamo_params` record inserted by `lambda_handler`
(GlueJobTrigger.py lines 75-82). -/
def dynamo_params (reference_id jobId job_start_time file_name email : String) : Item :=
  fun a =>
    if a = "reference_id" then some reference_id
    else if a = "jobId" then some jobId
    else if a = "job_start_time" then some job_start_time
    else if a = "job_status" then some "RUNNING"
    else if a = "file_name" then some file_name
    else if a = "email" then some email
    else none

/-- The job-record creation in `lambda_handler` (GlueJobTrigger.py lines
74-89): `table.put_item(Item=dynamo_params)` with no condition expression. -/
def insert_job_record (tbl : Table)
    (reference_id jobId job_start_time file_name email : String) : Table :=
  put_item tbl reference_id (dynamo_params reference_id jobId job_start_time file_name email)

theorem update_dynamodb_status_self (tbl : Table)
    (reference_id status job_end_time : String) (key : Option String) :
    update_dynamodb_status tbl reference_id status job_end_time key reference_id
      = some (setAttrs ((tbl reference_id).getD (keyOnlyItem reference_id))
          (status_updates status job_end_time (normalize_s3_key key))) := by
  simp [update_dynamodb_status, update_item]

theorem update_dynamodb_status_other {r2 reference_id : String} (tbl : Table)
    (status job_end_time : String) (key : Option String) (h : r2 ≠ reference_id) :
    update_dynamodb_status tbl reference_id status job_end_time key r2 = tbl r2 := by
  simp [update_dynamodb_status, update_item, h]

theorem update_status_written_attrs (tbl : Table) (reference_id status job_end_time : String)
    (key : Option String) :
    getAttr (update_dynamodb_status tbl reference_id status job_end_time key)
        reference_id "job_status" = some status ∧
      getAttr (update_dynamodb_status tbl reference_id status job_end_time key)
        reference_id "job_end_time" = some job_end_time := by
  cases hk : normalize_s3_key key <;>
    simp [getAttr, update_dynamodb_status, update_item, status_updates, hk,
      setAttrs, setAttr]

theorem update_status_frame_attr (tbl : Table) (reference_id status job_end_time : String)
    (key : Option String) (attr : String)
    (h1 : attr ≠ "job_status") (h2 : attr ≠ "job_end_time")
    (h3 : attr ≠ "s3_object_key") (h4 : attr ≠ "reference_id") :
    getAttr (update_dynamodb_status tbl reference_id status job_end_time key)
        reference_id attr = getAttr tbl reference_id attr := by
  cases hk : normalize_s3_key key <;> cases hb : tbl reference_id <;>
    simp [getAttr, update_dynamodb_status, update_item, status_updates, hk, hb,
      setAttrs, setAttr, keyOnlyItem, h1, h2, h3, h4]

theorem update_status_s3_attr (tbl : Table) (reference_id status job_end_time : String)
    (key : Option String) :
    getAttr (update_dynamodb_status tbl reference_id status job_end_time key)
        reference_id "s3_object_key"
      = match normalize_s3_key key with
        | some c => some c
        | none => getAttr tbl reference_id "s3_object_key" := by
  cases hk : normalize_s3_key key <;> cases hb : tbl reference_id <;>
    simp [getAttr, update_dynamodb_status, update_item, status_updates, hk, hb,
      setAttrs, setAttr, keyOnlyItem]

/-- Amended C5: the transition operation `update_dynamodb_status` is an
unconditional upsert.  It never fails: it always sets `job_status` to the new
status and `job_end_time` to the call time, for any current status (including
away from the terminal states) and it creates the record when no job with the
given `reference_id` exists.  No `NotFoundError` or `InvalidTransitionError`
exists in the code. -/
theorem c5_amended_unconditional_upsert (tbl : Table)
    (reference_id status job_end_time : String) (key : Option String) :
    getAttr (update_dynamodb_status tbl reference_id status job_end_time key)
        reference_id "job_status" = some status ∧
      getAttr (update_dynamodb_status tbl reference_id status job_end_time key)
        reference_id "job_end_time" = some job_end_time :=
  update_status_written_attrs tbl reference_id status job_end_time key

/-- Counterexample to C5 as stated: the stored job `R1` is in terminal status
SUCCEEDED, yet the transition call to RUNNING does not fail with
`InvalidTransitionError` — it changes the stored record to RUNNING; and a
transition on the absent `reference_id` `R9` does not fail with
`NotFoundError` — it creates the record. -/
theorem c5_counterexample :
    getAttr (fun r => if r = "R1" then
        some (fun a => if a = "reference_id" then some "R1"
          else if a = "job_status" then some "SUCCEEDED" else none) else none)
      "R1" "job_status" = some "SUCCEEDED"
    ∧ getAttr (update_dynamodb_status (fun r => if r = "R1" then
        some (fun a => if a = "reference_id" then some "R1"
          else if a = "job_status" then some "SUCCEEDED" else none) else none)
        "R1" "RUNNING" "T2" none) "R1" "job_status" = some "RUNNING"
    ∧ getAttr (update_dynamodb_status (fun _ => none) "R9" "RUNNING" "T0" none)
        "R9" "job_status" = some "RUNNING"
    ∧ ("SUCCEEDED" : String) ≠ "RUNNING" :=
  ⟨rfl, rfl, rfl, by decide⟩

/-- C6: every job-status transition is a partial update: it writes only the
supplied S3 key plus `job_status` and the `job_end_time` timestamp; any other
stored attribute of the job (for example `error_message`), every other item,
and — when no S3 key is supplied — a previously stored `s3_object_key`, are
left unchanged. -/
theorem c6_partial_update (tbl : Table) (reference_id status job_end_time : String)
    (key : Option String) (attr : String)
    (h1 : attr ≠ "job_status") (h2 : attr ≠ "job_end_time")
    (h3 : attr ≠ "s3_object_key") (h4 : attr ≠ "reference_id") :
    getAttr (update_dynamodb_status tbl reference_id status job_end_time key)
        reference_id attr = getAttr tbl reference_id attr
    ∧ (normalize_s3_key key = none →
        getAttr (update_dynamodb_status tbl reference_id status job_end_time key)
          reference_id "s3_object_key" = getAttr tbl reference_id "s3_object_key")
    ∧ ∀ r2, r2 ≠ reference_id →
        getItem (update_dynamodb_status tbl reference_id status job_end_time key) r2
          = getItem tbl r2 := by
  refine ⟨update_status_frame_attr tbl reference_id status job_end_time key attr h1 h2 h3 h4,
    fun hn => ?_, fun r2 hr2 => ?_⟩
  · have h := update_status_s3_attr tbl reference_id status job_end_time key
    rw [hn] at h
    exact h
  · simpa [getItem] using
      update_dynamodb_status_other tbl status job_end_time key hr2

/-- Witness for C6: a status-only transition on `R1` leaves the previously
stored `error_message` and `s3_object_key` intact and does not touch the
other item `R2`. -/
theorem c6_partial_update_witness :
    getAttr (update_dynamodb_status (fun r => if r = "R1" then
        some (fun a => if a = "reference_id" then some "R1"
          else if a = "job_status" then some "RUNNING"
          else if a = "s3_object_key" then some "old/key"
          else if a = "error_message" then some "E" else none) else none)
        "R1" "SUCCEEDED" "T9" none) "R1" "error_message"
      = getAttr (fun r => if r = "R1" then
        some (fun a => if a = "reference_id" then some "R1"
          else if a = "job_status" then some "RUNNING"
          else if a = "s3_object_key" then some "old/key"
          else if a = "error_message" then some "E" else none) else none)
        "R1" "error_message"
    ∧ getAttr (update_dynamodb_status (fun r => if r = "R1" then
          some (fun a => if a = "reference_id" then some "R1"
            else if a = "job_status" then some "RUNNING"
            else if a = "s3_object_key" then some "old/key"
            else if a = "error_message" then some "E" else none) else none)
          "R1" "SUCCEEDED" "T9" none) "R1" "s3_object_key"
        = getAttr (fun r => if r = "R1" then
          some (fun a => if a = "reference_id" then some "R1"
            else if a = "job_status" then some "RUNNING"
            else if a = "s3_object_key" then some "old/key"
            else if a = "error_message" then some "E" else none) else none)
          "R1" "s3_object_key"
    ∧ getItem (update_dynamodb_status (fun r => if r = "R1" then
          some (fun a => if a = "reference_id" then some "R1"
            else if a = "job_status" then some "RUNNING"
            else if a = "s3_object_key" then some "old/key"
            else if a = "error_message" then some "E" else none) else none)
          "R1" "SUCCEEDED" "T9" none) "R2"
        = getItem (fun r => if r = "R1" then
          some (fun a => if a = "reference_id" then some "R1"
            else if a = "job_status" then some "RUNNING"
            else if a = "s3_object_key" then some "old/key"
            else if a = "error_message" then some "E" else none) else none) "R2" :=
  ⟨(c6_partial_update _ "R1" "SUCCEEDED" "T9" none "error_message"
      (by decide) (by decide) (by decide) (by decide)).1,
    (c6_partial_update _ "R1" "SUCCEEDED" "T9" none "error_message"
      (by decide) (by decide) (by decide) (by decide)).2.1 rfl,
    (c6_partial_update _ "R1" "SUCCEEDED" "T9" none "error_message"
      (by decide) (by decide) (by decide) (by decide)).2.2 "R2" (by decide)⟩

/-- Amended C7: `main` performs exactly one terminal transition before
returning control: on success the record is set to SUCCEEDED carrying the
resolved (cleaned) unique output location, and on any exception the exception
is caught and the record is set to FAILED — but no `error_message` is stored
on the record (the message is only printed); every other stored attribute,
`error_message` included, is left unchanged by the FAILED transition. -/
theorem c7_amended_terminal_transition (tbl : Table)
    (reference_ID email output_path timestamp job_end_time : String) :
    (getAttr (main_terminal_update tbl reference_ID email output_path timestamp
          job_end_time (Except.ok ())) reference_ID "job_status" = some "SUCCEEDED"
      ∧ getAttr (main_terminal_update tbl reference_ID email output_path timestamp
          job_end_time (Except.ok ())) reference_ID "s3_object_key"
        = match normalize_s3_key
            (some (unique_output_path output_path email reference_ID timestamp)) with
          | some c => some c
          | none => getAttr tbl reference_ID "s3_object_key")
    ∧ ∀ msg : String,
        getAttr (main_terminal_update tbl reference_ID email output_path timestamp
            job_end_time (Except.error msg)) reference_ID "job_status" = some "FAILED"
        ∧ getAttr (main_terminal_update tbl reference_ID email output_path timestamp
            job_end_time (Except.error msg)) reference_ID "error_message"
          = getAttr tbl reference_ID "error_message" := by
  refine ⟨⟨?_, ?_⟩, fun msg => ⟨?_, ?_⟩⟩
  · exact (update_status_written_attrs tbl reference_ID "SUCCEEDED" job_end_time
      (some (unique_output_path output_path email reference_ID timestamp))).1
  · exact update_status_s3_attr tbl reference_ID "SUCCEEDED" job_end_time
      (some (unique_output_path output_path email reference_ID timestamp))
  · exact (update_status_written_attrs tbl reference_ID "FAILED" job_end_time none).1
  · exact update_status_frame_attr tbl reference_ID "FAILED" job_end_time none
      "error_message" (by decide) (by decide) (by decide) (by decide)

/-- Counterexample to C7 as stated: when processing raises the exception
"boom", the coordinator transitions the job to FAILED, but the stored record
carries no `error_message` at all — contrary to the claim that the FAILED
record carries a human-readable error message. -/
theorem c7_counterexample :
    getAttr (main_terminal_update (fun r => if r = "R1" then
        some (fun a => if a = "reference_id" then some "R1"
          else if a = "job_status" then some "RUNNING" else none) else none)
        "R1" "u@x" "out" "TS" "T1" (Except.error "boom")) "R1" "job_status"
      = some "FAILED"
    ∧ getAttr (main_terminal_update (fun r => if r = "R1" then
        some (fun a => if a = "reference_id" then some "R1"
          else if a = "job_status" then some "RUNNING" else none) else none)
        "R1" "u@x" "out" "TS" "T1" (Except.error "boom")) "R1" "error_message"
      = none :=
  ⟨rfl, rfl⟩

/-- Amended C8: a second transition call with the same status and the same
field values absorbs the first — the store ends up exactly as after a single
call made at the second call's time.  There is no error and no duplicate side
effect; the only trace of the repetition is `job_end_time`, which always takes
the latest call's internally generated timestamp (so the claimed byte-for-byte
idempotence holds exactly when the two timestamps coincide). -/
theorem c8_amended_second_call_absorbs (tbl : Table)
    (reference_id status t1 t2 : String) (key : Option String) :
    update_dynamodb_status (update_dynamodb_status tbl reference_id status t1 key)
        reference_id status t2 key
      = update_dynamodb_status tbl reference_id status t2 key := by
  funext r
  by_cases hr : r = reference_id
  · subst hr
    rw [update_dynamodb_status_self, update_dynamodb_status_self,
      update_dynamodb_status_self, Option.getD_some]
    congr 1
    funext a
    cases hk : normalize_s3_key key <;>
      simp only [status_updates, setAttrs, setAttr] <;> split_ifs <;> rfl
  · simp [update_dynamodb_status, update_item, hr]

/-- Counterexample to C8 as stated: two identical
`update_dynamodb_status(R1, SUCCEEDED, out.csv)` calls, made at times T1 and
T2, leave `job_end_time = T2`, while a single such call leaves
`job_end_time = T1` — the stored record after the double call is not
identical to the record after a single call. -/
theorem c8_counterexample :
    getAttr (update_dynamodb_status
        (update_dynamodb_status (fun _ => none) "R1" "SUCCEEDED" "T1" (some "out.csv"))
        "R1" "SUCCEEDED" "T2" (some "out.csv")) "R1" "job_end_time" = some "T2"
    ∧ getAttr (update_dynamodb_status (fun _ => none) "R1" "SUCCEEDED" "T1"
        (some "out.csv")) "R1" "job_end_time" = some "T1"
    ∧ ("T2" : String) ≠ "T1" :=
  ⟨rfl, rfl, by decide⟩

/-- Amended C9: creating a job record is an unconditional `put_item`: the new
record is stored under its `reference_id` whether or not a record with that
key already existed — an existing record is silently and completely replaced,
and no `DuplicateJobError` exists in the code.  Other items are untouched. -/
theorem c9_amended_create_overwrites (tbl : Table)
    (reference_id jobId job_start_time file_name email : String) :
    getItem (insert_job_record tbl reference_id jobId job_start_time file_name email)
        reference_id
      = some (dynamo_params reference_id jobId job_start_time file_name email)
    ∧ ∀ r2, r2 ≠ reference_id →
        getItem (insert_job_record tbl reference_id jobId job_start_time file_name email) r2
          = getItem tbl r2 := by
  constructor
  · simp [getItem, insert_job_record, put_item]
  · intro r2 h
    simp [getItem, insert_job_record, put_item, h]

/-- Witness for the amended C9 on an empty store. -/
theorem c9_amended_create_overwrites_witness :
    getItem (insert_job_record (fun _ => none) "R1" "J" "T" "f.json" "e@x") "R1"
      = some (dynamo_params "R1" "J" "T" "f.json" "e@x")
    ∧ getItem (insert_job_record (fun _ => none) "R1" "J" "T" "f.json" "e@x") "R2"
      = getItem (fun _ => none) "R2" :=
  ⟨(c9_amended_create_overwrites (fun _ => none) "R1" "J" "T" "f.json" "e@x").1,
    (c9_amended_create_overwrites (fun _ => none) "R1" "J" "T" "f.json" "e@x").2
      "R2" (by decide)⟩

/-- Counterexample to C9 as stated: a record with `reference_id = REF1`
(holding `file_name = old.json`) already exists, yet the second create does
not fail with `DuplicateJobError` — it silently replaces the record, whose
`file_name` becomes `new.json`. -/
theorem c9_counterexample :
    getAttr (fun r => if r = "REF1" then
        some (fun a => if a = "reference_id" then some "REF1"
          else if a = "file_name" then some "old.json" else none) else none)
      "REF1" "file_name" = some "old.json"
    ∧ getAttr (insert_job_record (fun r => if r = "REF1" then
        some (fun a => if a = "reference_id" then some "REF1"
          else if a = "file_name" then some "old.json" else none) else none)
        "REF1" "J2" "T2" "new.json" "e@x") "REF1" "file_name" = some "new.json"
    ∧ ("new.json" : String) ≠ "old.json" :=
  ⟨rfl, rfl, by decide⟩

end QDP
